import Mathlib

/-!
Shallow embedding of the client-side synchronization-and-submission engine of
the dreamer-frontend dashboard (src/src/App.jsx).  The React component's state
hooks become an explicit `AppState` record, the async handlers become pure
functions from the prior state and the (already settled) network results to
the new state plus an observable outcome, and the toast timer becomes an
explicit list of pending fire times.
-/

/-- Kind of a toast, `'success'` or `'error'` in the source (`showToast`'s
`type` parameter, default `'success'`). -/
inductive ToastType
  | success
  | error
deriving DecidableEq

/-- A toast value as stored by `setToast({ message, type })` (App.jsx line 18). -/
structure Toast where
  message : String
  kind : ToastType
deriving DecidableEq

/-- A namespace entry as returned by `GET /namespaces`:
`{ name: string, count: integer }`. -/
structure Namespace where
  name : String
  count : Int
deriving DecidableEq

/-- Aggregate stats as returned by `GET /stats` (App.jsx line 9 initialises the
state to `{ total_documents: 0, vectorized: 0 }`). -/
structure Stats where
  total_documents : Int
  vectorized : Int
deriving DecidableEq

/-- Discriminator of the document tagged union. -/
inductive DocType
  | triplet
  | text
deriving DecidableEq

/-- A recent document as returned by `GET /recent`.  The `namespace` field of
the wire format is called `ns` here because `namespace` is a Lean keyword. -/
structure Document where
  ns : String
  doc_type : DocType
  timestamp : Option Int
  content : Option String
  head : Option String
  relation : Option String
  tail : Option String
deriving DecidableEq

/-- The component state: one field per `useState` hook of `App` (App.jsx
lines 7-15), with the JS names kept (`text`, `newNamespace`, `loading`). -/
structure AppState where
  namespaces : List Namespace
  recentDocs : List Document
  stats : Stats
  selectedNamespace : String
  filterNamespace : Option String
  text : String
  newNamespace : String
  loading : Bool
  toast : Option Toast
deriving DecidableEq

/-- The initial state of the hooks (App.jsx lines 7-15). -/
def initialState : AppState :=
  { namespaces := []
  , recentDocs := []
  , stats := { total_documents := 0, vectorized := 0 }
  , selectedNamespace := ""
  , filterNamespace := none
  , text := ""
  , newNamespace := ""
  , loading := false
  , toast := none }

/-- JS whitespace test for the characters `String.prototype.trim` removes
(restricted to the ASCII whitespace the source's inputs can contain). -/
def isJsWs (c : Char) : Bool :=
  c = ' ' || c = '\t' || c = '\n' || c = '\r'

/-- Model of JS `String.prototype.trim`: drop leading and trailing
whitespace. -/
def jsTrim (s : String) : String :=
  String.mk (((s.data.dropWhile isJsWs).reverse.dropWhile isJsWs).reverse)

/-- JS `a || b` on strings: a string is falsy exactly when it is empty. -/
def jsOr (a b : String) : String :=
  if a = "" then b else a

/-- JS `data.detail || b` where `detail` is an optional string field: an
absent field is `undefined` (falsy) and an empty string is falsy too. -/
def detailOr (d : Option String) (b : String) : String :=
  match d with
  | some s => jsOr s b
  | none => b

/-- The parsed body of `GET /namespaces`; the `namespaces` field may be
absent, which the source defaults with `nsData.namespaces || []`. -/
structure NsBody where
  namespaces : Option (List Namespace)
deriving DecidableEq

/-- The parsed body of `GET /recent`; the `documents` field may be absent,
which the source defaults with `recentData.documents || []`. -/
structure RecentBody where
  documents : Option (List Document)
deriving DecidableEq

/-- The namespace-selection derivation inlined at App.jsx lines 37-39:
`if (!selectedNamespace && nsData.namespaces?.length > 0)
   setSelectedNamespace(nsData.namespaces[0].name)`.
A JS string is falsy exactly when empty, so the prior selection is replaced
only when it is `""` and the fetched list is non-empty. -/
def deriveSelection (prev : String) (fetched : List Namespace) : String :=
  if prev = "" then
    match fetched with
    | n :: _ => n.name
    | [] => prev
  else prev

/-- `fetchData` (App.jsx lines 22-43).  Each of the three reads is modelled
as `none` when the request (or its body parse) fails; `Promise.all` rejects
if any of the three rejects, all three `json()` awaits precede every state
write, and the `catch` only calls `console.error`, so on any failure the
prior state is returned untouched.  On success the source writes
`nsData.namespaces || []`, `statsData` verbatim, and
`recentData.documents || []`, then conditionally derives the selection. -/
def fetchData (s : AppState) (nsRes : Option NsBody) (statsRes : Option Stats)
    (recentRes : Option RecentBody) : AppState :=
  match nsRes, statsRes, recentRes with
  | some nsData, some statsData, some recentData =>
    { s with
      namespaces := nsData.namespaces.getD []
      stats := statsData
      recentDocs := recentData.documents.getD []
      selectedNamespace := deriveSelection s.selectedNamespace (nsData.namespaces.getD []) }
  | _, _, _ => s

/-- The state of the single toast slot together with the absolute fire times
of every `setTimeout(() => setToast(null), 4000)` still pending.  The source
never stores or clears a timer handle, so every scheduled dismissal stays
pending until it fires. -/
structure ToastState where
  toast : Option Toast
  timers : List Nat
deriving DecidableEq

/-- `showToast` (App.jsx lines 17-20) executed at absolute time `now`: store
the toast and schedule a dismissal 4000 ms later.  No existing timer is
cancelled. -/
def showToastAt (now : Nat) (m : String) (k : ToastType) (s : ToastState) : ToastState :=
  { toast := some { message := m, kind := k }
  , timers := s.timers ++ [now + 4000] }

/-- Fire every pending timer whose time has come (each callback is
`setToast(null)`, so firing any of them clears the slot). -/
def fireDue (t : Nat) (s : ToastState) : ToastState :=
  { toast := if s.timers.any (fun ft => decide (ft ≤ t)) then none else s.toast
  , timers := s.timers.filter (fun ft => decide (t < ft)) }

/-- The toast visible at time `t` after a timeline of `showToast` calls
(given in increasing time order): timers due at or before an event fire
before it, and all timers due by `t` fire before the observation. -/
def toastAt (pushes : List (Nat × String × ToastType)) (t : Nat) : Option Toast :=
  (fireDue t (pushes.foldl
    (fun s p => showToastAt p.1 p.2.1 p.2.2 (fireDue p.1 s))
    { toast := none, timers := [] })).toast

/-- The parsed body of the `POST /ingest` response together with `res.ok`
(`true` exactly for 2xx statuses); per the wire contract the failure body is
`{ detail?: string }`. -/
structure IngestResponse where
  ok : Bool
  detail : Option String
deriving DecidableEq

/-- The success toast text of App.jsx line 69, a template literal over the
resolved namespace. -/
def successMsg (ns : String) : String :=
  "✓ Ingested into \"" ++ ns ++ "\" — now queryable by the AI agent"

/-- Everything observable about one run of `handleIngest`: whether the
network request was issued and with which body, the toasts raised (in
order), the final draft fields, how many `fetchData` syncs were triggered,
whether `setLoading(true)` ever ran, and the final `loading` value. -/
structure IngestOutcome where
  networkCalled : Bool
  requestNamespace : Option String
  requestText : Option String
  toasts : List Toast
  finalText : String
  finalNewNamespace : String
  syncsTriggered : Nat
  loadingSetDuring : Bool
  finalLoading : Bool
deriving DecidableEq

/-- `handleIngest` (App.jsx lines 51-81) over the draft fields and the
settled outcome of the ingest request (`none` = the fetch rejected, i.e. a
network failure).  The source resolves `ns = newNamespace.trim() || selectedNamespace`,
rejects when `!ns || !text.trim()` before touching `loading`, otherwise sets
`loading`, issues the request with `{ namespace: ns, text: text.trim() }`,
branches on `res.ok` (success toast + clear drafts + one `fetchData`; or
error toast from `data.detail || 'Ingestion failed'`), catches network
failure with a generic error toast, and resets `loading` in `finally`. -/
def handleIngest (newNamespace selectedNamespace text : String)
    (response : Option IngestResponse) : IngestOutcome :=
  let ns := jsOr (jsTrim newNamespace) selectedNamespace
  if ns = "" ∨ jsTrim text = "" then
    { networkCalled := false
    , requestNamespace := none
    , requestText := none
    , toasts := [{ message := "Namespace and text are required", kind := ToastType.error }]
    , finalText := text
    , finalNewNamespace := newNamespace
    , syncsTriggered := 0
    , loadingSetDuring := false
    , finalLoading := false }
  else
    match response with
    | some res =>
      if res.ok then
        { networkCalled := true
        , requestNamespace := some ns
        , requestText := some (jsTrim text)
        , toasts := [{ message := successMsg ns, kind := ToastType.success }]
        , finalText := ""
        , finalNewNamespace := ""
        , syncsTriggered := 1
        , loadingSetDuring := true
        , finalLoading := false }
      else
        { networkCalled := true
        , requestNamespace := some ns
        , requestText := some (jsTrim text)
        , toasts := [{ message := detailOr res.detail "Ingestion failed", kind := ToastType.error }]
        , finalText := text
        , finalNewNamespace := newNamespace
        , syncsTriggered := 0
        , loadingSetDuring := true
        , finalLoading := false }
    | none =>
      { networkCalled := true
      , requestNamespace := some ns
      , requestText := some (jsTrim text)
      , toasts := [{ message := "Network error — is the backend running?", kind := ToastType.error }]
      , finalText := text
      , finalNewNamespace := newNamespace
      , syncsTriggered := 0
      , loadingSetDuring := true
      , finalLoading := false }

/-- `formatTime` (App.jsx lines 83-92).  Timestamps and `now` are epoch
milliseconds; an absent/empty timestamp is `none`.  `Math.floor` of the
millisecond difference over 1000 is floor division, so `Int.fdiv` is used.
`toLocaleDateString` is locale-dependent and is taken as the parameter
`localeDate`. -/
def formatTime (localeDate : Int → String) (timestamp : Option Int) (now : Int) : String :=
  match timestamp with
  | none => ""
  | some t =>
    let diff := (now - t).fdiv 1000
    if diff < 60 then "just now"
    else if diff < 3600 then toString (diff.fdiv 60) ++ "m ago"
    else if diff < 86400 then toString (diff.fdiv 3600) ++ "h ago"
    else localeDate t

/-!
Theorems settling the claims.
-/

/-- Claim C1: for every sync in which any of the three read requests fails,
`fetchData` returns the prior state unchanged — `namespaces`, `stats` and
`recentDocs` all keep the previous snapshot, no partial field is
overwritten, and no toast is raised (the `toast` slot is untouched). -/
theorem fetchData_sync_failure_atomic (s : AppState)
    (nsRes : Option NsBody) (statsRes : Option Stats) (recentRes : Option RecentBody)
    (h : nsRes = none ∨ statsRes = none ∨ recentRes = none) :
    fetchData s nsRes statsRes recentRes = s := by
  cases nsRes <;> cases statsRes <;> cases recentRes <;> simp_all [fetchData]

/-- Witness for claim C1 at a concrete input: the namespaces request failed
while the other two succeeded, and the initial state is returned intact. -/
theorem fetchData_sync_failure_atomic_witness :
    fetchData initialState none (some { total_documents := 3, vectorized := 1 })
      (some { documents := some [] }) = initialState :=
  fetchData_sync_failure_atomic initialState none
    (some { total_documents := 3, vectorized := 1 }) (some { documents := some [] })
    (Or.inl rfl)

/-- Claim C2, evaluated on the code at the failing input: `showToast` never
cancels the previously scheduled dismissal, so after pushing A at 0 ms and B
at 1000 ms, A's timer fires at 4000 ms and clears the slot — at 4500 ms,
inside B's supposed fresh 4000 ms window (which should last until 5000 ms),
no toast is visible, although B pushed alone would still be visible then. -/
theorem showToast_stale_timer_dismisses_newer :
    toastAt [(0, "A", ToastType.error), (1000, "B", ToastType.error)] 4500 = none ∧
    toastAt [(1000, "B", ToastType.error)] 4500
      = some { message := "B", kind := ToastType.error } := by
  decide

/-- Claim C3 counterexample: a non-2xx response whose body carries a
`detail` field that is present but equal to `""` yields the generic
`"Ingestion failed"` toast, not the present `detail` value — the source's
`data.detail || 'Ingestion failed'` tests truthiness, not presence. -/
theorem handleIngest_empty_detail_counterexample :
    (handleIngest "ProjectA" "" "hello" (some { ok := false, detail := some "" })).toasts
      = [{ message := "Ingestion failed", kind := ToastType.error }] ∧
    (handleIngest "ProjectA" "" "hello" (some { ok := false, detail := some "" })).toasts
      ≠ [{ message := "", kind := ToastType.error }] := by
  decide

/-- Claim C3 (amended): for every submission that passes validation and whose
ingest request yields a non-2xx response, exactly one error toast is raised;
its message is the body's `detail` field when that field is present and
non-empty, and the generic `"Ingestion failed"` message otherwise. -/
theorem handleIngest_http_error_message (nn sel txt : String) (res : IngestResponse)
    (hval : ¬(jsOr (jsTrim nn) sel = "" ∨ jsTrim txt = "")) (hok : res.ok = false) :
    (∀ d, res.detail = some d → d ≠ "" →
      (handleIngest nn sel txt (some res)).toasts
        = [{ message := d, kind := ToastType.error }]) ∧
    ((res.detail = none ∨ res.detail = some "") →
      (handleIngest nn sel txt (some res)).toasts
        = [{ message := "Ingestion failed", kind := ToastType.error }]) := by
  have key : (handleIngest nn sel txt (some res)).toasts
      = [{ message := detailOr res.detail "Ingestion failed", kind := ToastType.error }] := by
    simp only [handleIngest]
    rw [if_neg hval]
    simp [hok]
  constructor
  · intro d hd hne
    rw [key, hd]
    simp [detailOr, jsOr, hne]
  · rintro (h | h) <;> rw [key, h] <;> simp [detailOr, jsOr]

/-- Witness for the amended claim C3 at the spec's own example: status 400
with body `detail = "too long"` produces exactly the toast `"too long"`. -/
theorem handleIngest_http_error_message_witness :
    (handleIngest "" "ProjectA" "note" (some { ok := false, detail := some "too long" })).toasts
      = [{ message := "too long", kind := ToastType.error }] :=
  (handleIngest_http_error_message "" "ProjectA" "note"
    { ok := false, detail := some "too long" } (by decide) rfl).1 "too long" rfl (by decide)

/-- Claim C4: when the prior selection is the empty string and the fetched
list is non-empty, the derivation picks the first element's name; a
non-empty prior selection is returned unchanged whatever the fetched list
contains — even when the selected name no longer appears in it. -/
theorem deriveSelection_policy (n : Namespace) (l : List Namespace)
    (prev : String) (hprev : prev ≠ "") (l2 : List Namespace) :
    deriveSelection "" (n :: l) = n.name ∧ deriveSelection prev l2 = prev := by
  constructor
  · rfl
  · simp [deriveSelection, hprev]

/-- Witness for claim C4 at concrete inputs: an empty prior selection picks
`"ProjectA"` from the list, and the prior selection `"ProjectA"` survives a
fetched list that no longer contains it. -/
theorem deriveSelection_policy_witness :
    deriveSelection "" [{ name := "ProjectA", count := 2 }] = "ProjectA" ∧
    deriveSelection "ProjectA" [] = "ProjectA" :=
  ⟨(deriveSelection_policy { name := "ProjectA", count := 2 } [] "ProjectA" (by decide) []).1,
   (deriveSelection_policy { name := "ProjectA", count := 2 } [] "ProjectA" (by decide) []).2⟩

/-- Claim C5: when the resolved target namespace (trimmed `newNamespace` if
non-empty, else `selectedNamespace`) is empty, or the trimmed text is empty,
`handleIngest` makes no network call, raises exactly the local validation
error toast, and never sets the loading flag. -/
theorem handleIngest_validation_failure (nn sel txt : String)
    (resp : Option IngestResponse)
    (h : jsOr (jsTrim nn) sel = "" ∨ jsTrim txt = "") :
    (handleIngest nn sel txt resp).networkCalled = false ∧
    (handleIngest nn sel txt resp).toasts
      = [{ message := "Namespace and text are required", kind := ToastType.error }] ∧
    (handleIngest nn sel txt resp).loadingSetDuring = false ∧
    (handleIngest nn sel txt resp).finalLoading = false := by
  simp only [handleIngest]
  rw [if_pos h]
  exact ⟨rfl, rfl, rfl, rfl⟩

/-- Witness for claim C5 at the spec's example `submit("", "", "hello")`. -/
theorem handleIngest_validation_failure_witness :
    (handleIngest "" "" "hello" none).networkCalled = false ∧
    (handleIngest "" "" "hello" none).toasts
      = [{ message := "Namespace and text are required", kind := ToastType.error }] ∧
    (handleIngest "" "" "hello" none).loadingSetDuring = false ∧
    (handleIngest "" "" "hello" none).finalLoading = false :=
  handleIngest_validation_failure "" "" "hello" none (Or.inl (by decide))

/-- Claim C6: a validated submission whose ingest request yields a 2xx
response clears both draft fields, raises exactly one success toast naming
the resolved target namespace, and triggers exactly one immediate sync. -/
theorem handleIngest_success_effects (nn sel txt : String) (res : IngestResponse)
    (hval : ¬(jsOr (jsTrim nn) sel = "" ∨ jsTrim txt = "")) (hok : res.ok = true) :
    (handleIngest nn sel txt (some res)).finalText = "" ∧
    (handleIngest nn sel txt (some res)).finalNewNamespace = "" ∧
    (handleIngest nn sel txt (some res)).toasts
      = [{ message := successMsg (jsOr (jsTrim nn) sel), kind := ToastType.success }] ∧
    (handleIngest nn sel txt (some res)).syncsTriggered = 1 := by
  simp [handleIngest, hval, hok]

/-- Witness for claim C6 at `submit("ProjectB", "ProjectA", "note")` with a
2xx response: drafts cleared, one success toast naming `"ProjectB"` (the
new-namespace field takes precedence), one sync triggered. -/
theorem handleIngest_success_effects_witness :
    (handleIngest "ProjectB" "ProjectA" "note" (some { ok := true, detail := none })).finalText = "" ∧
    (handleIngest "ProjectB" "ProjectA" "note" (some { ok := true, detail := none })).finalNewNamespace = "" ∧
    (handleIngest "ProjectB" "ProjectA" "note" (some { ok := true, detail := none })).toasts
      = [{ message := successMsg "ProjectB", kind := ToastType.success }] ∧
    (handleIngest "ProjectB" "ProjectA" "note" (some { ok := true, detail := none })).syncsTriggered = 1 := by
  have h := handleIngest_success_effects "ProjectB" "ProjectA" "note"
    { ok := true, detail := none } (by decide) rfl
  have e : jsOr (jsTrim "ProjectB") "ProjectA" = "ProjectB" := by decide
  rw [e] at h
  exact h

/-- Claim C7: every submission that passes validation sets the loading flag
before the request and ends with it reset to `false` on every exit path —
2xx, non-2xx and network failure alike. -/
theorem handleIngest_loading_flag (nn sel txt : String) (resp : Option IngestResponse)
    (hval : ¬(jsOr (jsTrim nn) sel = "" ∨ jsTrim txt = "")) :
    (handleIngest nn sel txt resp).loadingSetDuring = true ∧
    (handleIngest nn sel txt resp).finalLoading = false := by
  cases resp with
  | none => simp [handleIngest, hval]
  | some res => cases hres : res.ok <;> simp [handleIngest, hval, hres]

/-- Witness for claim C7 at a concrete validated submission that then fails
at the network level. -/
theorem handleIngest_loading_flag_witness :
    (handleIngest "ProjectB" "" "note" none).loadingSetDuring = true ∧
    (handleIngest "ProjectB" "" "note" none).finalLoading = false :=
  handleIngest_loading_flag "ProjectB" "" "note" none (by decide)

/-- Claim C8: with `diff = floor((now - t) / 1000)` in seconds, `formatTime`
returns `""` for an absent timestamp, `"just now"` below 60 s, minutes below
3600 s, hours below 86400 s, and the locale-formatted date otherwise, the
rules being evaluated in order. -/
theorem formatTime_rules (ld : Int → String) (t now : Int) :
    formatTime ld none now = "" ∧
    ((now - t).fdiv 1000 < 60 → formatTime ld (some t) now = "just now") ∧
    (60 ≤ (now - t).fdiv 1000 → (now - t).fdiv 1000 < 3600 →
      formatTime ld (some t) now = toString (((now - t).fdiv 1000).fdiv 60) ++ "m ago") ∧
    (3600 ≤ (now - t).fdiv 1000 → (now - t).fdiv 1000 < 86400 →
      formatTime ld (some t) now = toString (((now - t).fdiv 1000).fdiv 3600) ++ "h ago") ∧
    (86400 ≤ (now - t).fdiv 1000 → formatTime ld (some t) now = ld t) := by
  refine ⟨rfl, ?_, ?_, ?_, ?_⟩
  · intro h
    simp only [formatTime]
    rw [if_pos h]
  · intro h1 h2
    simp only [formatTime]
    rw [if_neg (not_lt.mpr h1), if_pos h2]
  · intro h1 h2
    simp only [formatTime]
    rw [if_neg (not_lt.mpr (by linarith)), if_neg (not_lt.mpr h1), if_pos h2]
  · intro h
    simp only [formatTime]
    rw [if_neg (not_lt.mpr (by linarith)), if_neg (not_lt.mpr (by linarith)),
      if_neg (not_lt.mpr h)]

/-- Witness for claim C8 at the spec's examples: differences of 45 s, 125 s
and 7300 s format as `"just now"`, `"2m ago"` and `"2h ago"`. -/
theorem formatTime_rules_witness :
    formatTime (fun _ => "") (some 0) 45000 = "just now" ∧
    formatTime (fun _ => "") (some 0) 125000 = "2m ago" ∧
    formatTime (fun _ => "") (some 0) 7300000 = "2h ago" := by
  refine ⟨(formatTime_rules (fun _ => "") 0 45000).2.1 (by decide), ?_, ?_⟩
  · have h := (formatTime_rules (fun _ => "") 0 125000).2.2.1 (by decide) (by decide)
    rw [h]
    decide
  · have h := (formatTime_rules (fun _ => "") 0 7300000).2.2.2.1 (by decide) (by decide)
    rw [h]
    decide

/-- Claim C9: on a fully successful sync, a namespaces body without a
`namespaces` array yields `namespaces = []`, a recent body without a
`documents` array yields `recentDocs = []` (the prior values are not
retained), and `stats` is replaced verbatim by whatever the stats body
parsed to, with no defaulting. -/
theorem fetchData_missing_fields_default (s : AppState) (st : Stats)
    (nsB : NsBody) (recB : RecentBody) :
    (fetchData s (some { namespaces := none }) (some st) (some recB)).namespaces = [] ∧
    (fetchData s (some nsB) (some st) (some { documents := none })).recentDocs = [] ∧
    (fetchData s (some nsB) (some st) (some recB)).stats = st := by
  refine ⟨?_, ?_, ?_⟩ <;> simp [fetchData]

/-- Claim C10: a whitespace-only `selectedNamespace` passes validation when
the new-namespace draft trims to empty and the text does not, and the
request is issued with the untrimmed whitespace-only namespace — only
`newNamespace` is trimmed during target resolution. -/
theorem handleIngest_untrimmed_selected_namespace (nn sel txt : String)
    (resp : Option IngestResponse)
    (hsel : sel ≠ "") (hselws : jsTrim sel = "") (hnn : jsTrim nn = "")
    (htxt : jsTrim txt ≠ "") :
    (handleIngest nn sel txt resp).networkCalled = true ∧
    (handleIngest nn sel txt resp).requestNamespace = some sel := by
  have hns : jsOr (jsTrim nn) sel = sel := by rw [hnn]; rfl
  have hval : ¬(sel = "" ∨ jsTrim txt = "") := by simp [hsel, htxt]
  cases resp with
  | none => simp [handleIngest, hval, hns]
  | some res => cases hres : res.ok <;> simp [handleIngest, hval, hns, hres]

/-- Witness for claim C10 at a concrete input: a single-space
`selectedNamespace` reaches the network and is sent untrimmed. -/
theorem handleIngest_untrimmed_selected_namespace_witness :
    (handleIngest "" " " "hello" (some { ok := true, detail := none })).networkCalled = true ∧
    (handleIngest "" " " "hello" (some { ok := true, detail := none })).requestNamespace
      = some " " :=
  handleIngest_untrimmed_selected_namespace "" " " "hello"
    (some { ok := true, detail := none }) (by decide) (by decide) (by decide) (by decide)
